import Mathlib

/-!
Verification of the gate-pass lifecycle and its role-scoped authorization
policy of the College-Gate-Pass backend.

Shallow embedding conventions:
* Instants (`timezone`-aware datetimes) are modelled as `Nat` minutes since an
  epoch; a calendar date is the quotient by the 1440 minutes of a day
  (`dateOf`), matching the source's `datetime.date()` extraction.
* A user's `department` is a `CharField` with `blank=True`; a blank value is
  falsy in the source's `if user.department:` checks, so it is modelled as
  `Option String` with `none` for blank.
* Django model instances compare by primary key, so `obj.student == user`
  is modelled as equality of the `id` fields.
* Each distinct error `Response` / raised `ValidationError` branch of the
  source is one constructor of an error type, so "message includes the
  current status" is the constructor carrying that status.
* Handlers mutate the record and return a response; they are embedded as
  functions returning the (possibly updated) record paired with
  `Option <error>`, `none` meaning the success response.
-/

namespace GatePassSystem

/-- The seven roles of `accounts.models.User.ROLE_CHOICES`. -/
inductive Role where
  | student
  | faculty
  | class_incharge
  | hod
  | principal
  | security
  | admin
deriving DecidableEq, Repr

/-- `accounts.models.StudentProfile.residency_type` choices. -/
inductive Residency where
  | DAY_SCHOLAR
  | HOSTELLER
deriving DecidableEq, Repr

/-- `gate_pass.models.GatePass.PASS_TYPE_CHOICES`. -/
inductive PassType where
  | DAY_OUT
  | HOME_LEAVE
  | EMERGENCY
  | NIGHT_OUT
  | LONG_LEAVE
deriving DecidableEq, Repr

/-- `gate_pass.models.GatePass.STATUS_CHOICES`. -/
inductive Status where
  | pending
  | approved
  | rejected
  | expired
  | used
deriving DecidableEq, Repr

/-- `gate_pass.models.GateLog.ACTION_CHOICES`: `OUT` (exit) and `IN` (entry). -/
inductive GateAction where
  | out
  | entry
deriving DecidableEq, Repr

/-- An instant: minutes since an epoch. -/
abbrev DateTime := Nat

/-- Calendar date of an instant (`datetime.date()`), as a day index. -/
def dateOf (t : DateTime) : Nat := t / 1440

/-- An authenticated `accounts.models.User`: primary key, role and
(optional, i.e. possibly blank) department. -/
structure User where
  id : Nat
  role : Role
  department : Option String
deriving DecidableEq, Repr

/-- A `gate_pass.models.GateLog` row (the `gate_pass` foreign key is implicit:
logs live inside their pass below). `timestamp` is `auto_now_add`. -/
structure GateLog where
  action : GateAction
  timestamp : DateTime
  markedBy : Nat
  notes : String
deriving DecidableEq, Repr

/-- A `gate_pass.models.GatePass` row together with its related `logs`. -/
structure GatePass where
  student : User
  passType : PassType
  reason : String
  outDatetime : DateTime
  inDatetime : DateTime
  status : Status
  approvedBy : Option Nat
  approverComment : String
  logs : List GateLog
deriving DecidableEq, Repr

/-- `gate_pass.logs.filter(action='OUT').exists()`. -/
def hasOutLog (gp : GatePass) : Bool :=
  gp.logs.any (fun l => l.action == GateAction.out)

/-- `gate_pass.logs.filter(action='IN').exists()`. -/
def hasInLog (gp : GatePass) : Bool :=
  gp.logs.any (fun l => l.action == GateAction.entry)

/-- Number of OUT rows of a pass. -/
def outCount (gp : GatePass) : Nat :=
  (gp.logs.filter (fun l => l.action == GateAction.out)).length

/-- Number of IN rows of a pass. -/
def inCount (gp : GatePass) : Nat :=
  (gp.logs.filter (fun l => l.action == GateAction.entry)).length

/-! ## Authorization policy (`gate_pass/permissions.py`) -/

/-- `CanApproveGatePass.APPROVER_ROLES`. -/
def approverRoles : List Role := [Role.class_incharge, Role.hod, Role.principal]

/-- `CanApproveGatePass.FULL_APPROVER_ROLES`. -/
def fullApproverRoles : List Role := [Role.hod, Role.principal]

/-- `CanApproveGatePass.EMERGENCY_ONLY_ROLES`. -/
def emergencyOnlyRoles : List Role := [Role.class_incharge]

/-- Errors surfaced by the approve/reject endpoints. `notPermitted` is the
class-level default `message`; `emergencyOnly` is the message
"Class Incharge can only approve EMERGENCY passes."; `alreadyStatus s` is the
response "Gate pass is already {s}." carrying the current status `s`. -/
inductive ApproveError where
  | notPermitted
  | emergencyOnly
  | alreadyStatus (s : Status)
deriving DecidableEq, Repr

/-- `CanApproveGatePass.has_permission`: only the approver roles pass the
view-level check. -/
def canApproveHasPermission (u : User) : Bool :=
  approverRoles.contains u.role

/-- `CanApproveGatePass.has_object_permission`: the decision together with the
`message` in force when it denies (the source mutates `self.message` in the
class-incharge non-EMERGENCY branch). -/
def canApproveObjectPerm (u : User) (gp : GatePass) : Bool × ApproveError :=
  if fullApproverRoles.contains u.role then
    (true, ApproveError.notPermitted)
  else if emergencyOnlyRoles.contains u.role then
    if gp.passType = PassType.EMERGENCY then
      (true, ApproveError.notPermitted)
    else
      (false, ApproveError.emergencyOnly)
  else
    (false, ApproveError.notPermitted)

/-- The allow/deny outcome of the whole `CanApproveGatePass` permission
(view-level and object-level), as checked by both the approve and the reject
endpoint before any status validation. -/
def approveDecision (u : User) (gp : GatePass) : Bool :=
  canApproveHasPermission u && (canApproveObjectPerm u gp).1

/-- `CanMarkEntryExit.has_permission`: only security. -/
def canMarkEntryExit (u : User) : Bool :=
  u.role == Role.security

/-- `CanViewGatePass.has_object_permission` (the detail endpoint's object
check): the owning student, any of hod / principal / class_incharge /
faculty, security, and admin may view. -/
def canViewGatePassObject (u : User) (gp : GatePass) : Bool :=
  if gp.student.id == u.id then true
  else if u.role == Role.hod || u.role == Role.principal ||
          u.role == Role.class_incharge || u.role == Role.faculty then true
  else if u.role == Role.security then true
  else if u.role == Role.admin then true
  else false

/-! ## Creation (`GatePassCreateSerializer.validate` / `.create`) -/

/-- `GatePassCreateSerializer.DAY_SCHOLAR_PASS_TYPES`. -/
def dayScholarPassTypes : List PassType :=
  [PassType.DAY_OUT, PassType.HOME_LEAVE, PassType.EMERGENCY]

/-- `GatePassCreateSerializer.HOSTELLER_PASS_TYPES`. -/
def hostellerPassTypes : List PassType :=
  [PassType.DAY_OUT, PassType.HOME_LEAVE, PassType.EMERGENCY,
   PassType.NIGHT_OUT, PassType.LONG_LEAVE]

/-- One constructor per `ValidationError` branch of
`GatePassCreateSerializer.validate`, in source order. -/
inductive CreateError where
  | notStudent
  | noProfile
  | outNotFuture
  | inNotAfterOut
  | passTypeNotAllowed
  | notSameDay
deriving DecidableEq, Repr

/-- `GatePassCreateSerializer.validate`: the raise reached first, or `none`
when the attributes validate. `hasProfile` models
`hasattr(user, 'student_profile')` and `res` the profile's `residency_type`. -/
def validateCreate (u : User) (hasProfile : Bool) (res : Residency)
    (pt : PassType) (outD inD now : DateTime) : Option CreateError :=
  if u.role ≠ Role.student then some CreateError.notStudent
  else if !hasProfile then some CreateError.noProfile
  else if outD < now then some CreateError.outNotFuture
  else if inD ≤ outD then some CreateError.inNotAfterOut
  else if res = Residency.DAY_SCHOLAR then
    if !(dayScholarPassTypes.contains pt) then some CreateError.passTypeNotAllowed
    else if dateOf outD ≠ dateOf inD then some CreateError.notSameDay
    else none
  else if res = Residency.HOSTELLER then
    if !(hostellerPassTypes.contains pt) then some CreateError.passTypeNotAllowed
    else none
  else none

/-- `GatePassCreateView.create`: on validation success a pass owned by the
requesting student is stored with default status `pending` and no logs. -/
def createPass (u : User) (hasProfile : Bool) (res : Residency)
    (pt : PassType) (reason : String) (outD inD now : DateTime) :
    Except CreateError GatePass :=
  match validateCreate u hasProfile res pt outD inD now with
  | some e => Except.error e
  | none =>
      Except.ok
        { student := u, passType := pt, reason := reason,
          outDatetime := outD, inDatetime := inD,
          status := Status.pending, approvedBy := none,
          approverComment := "", logs := [] }

/-! ## Approve / Reject (`GatePassApproveView.post` / `GatePassRejectView.post`) -/

/-- `GatePassApproveView.post`: permission checks, then the
`status != 'pending'` guard, then the mutation. -/
def approve (u : User) (comment : String) (gp : GatePass) :
    GatePass × Option ApproveError :=
  if canApproveHasPermission u then
    if (canApproveObjectPerm u gp).1 then
      if gp.status = Status.pending then
        ({ gp with status := Status.approved, approvedBy := some u.id,
                   approverComment := comment }, none)
      else
        (gp, some (ApproveError.alreadyStatus gp.status))
    else
      (gp, some (canApproveObjectPerm u gp).2)
  else
    (gp, some ApproveError.notPermitted)

/-- `GatePassRejectView.post`: identical guards, mutation to `rejected`. -/
def reject (u : User) (comment : String) (gp : GatePass) :
    GatePass × Option ApproveError :=
  if canApproveHasPermission u then
    if (canApproveObjectPerm u gp).1 then
      if gp.status = Status.pending then
        ({ gp with status := Status.rejected, approvedBy := some u.id,
                   approverComment := comment }, none)
      else
        (gp, some (ApproveError.alreadyStatus gp.status))
    else
      (gp, some (canApproveObjectPerm u gp).2)
  else
    (gp, some ApproveError.notPermitted)

/-! ## Mark-out / Mark-in (`GatePassMarkOutView.post` / `GatePassMarkInView.post`) -/

/-- One constructor per error `Response` of the mark-out / mark-in endpoints,
in source order. `expired` is "Gate pass has expired." -/
inductive MarkError where
  | notSecurity
  | notApproved
  | alreadyExited
  | notYetValid
  | expired
  | notValid
  | notExitedYet
  | alreadyReturned
deriving DecidableEq, Repr

/-- `GatePassMarkOutView.post`: permission, status and duplicate-log guards,
then the time window; `now > in_datetime` saves `status='expired'` and fails;
success appends the OUT log (`timestamp` is the insertion instant). -/
def markOut (u : User) (gp : GatePass) (now : DateTime) (notes : String) :
    GatePass × Option MarkError :=
  if canMarkEntryExit u then
    if gp.status = Status.approved then
      if hasOutLog gp then (gp, some MarkError.alreadyExited)
      else if now < gp.outDatetime then (gp, some MarkError.notYetValid)
      else if gp.inDatetime < now then
        ({ gp with status := Status.expired }, some MarkError.expired)
      else
        ({ gp with logs :=
            { action := GateAction.out, timestamp := now,
              markedBy := u.id, notes := notes } :: gp.logs }, none)
    else (gp, some MarkError.notApproved)
  else (gp, some MarkError.notSecurity)

/-- `GatePassMarkInView.post`: permission, status-in-{approved,used} and log
guards; no time-window check; success appends the IN log and sets
`status='used'`. -/
def markIn (u : User) (gp : GatePass) (now : DateTime) (notes : String) :
    GatePass × Option MarkError :=
  if canMarkEntryExit u then
    if gp.status = Status.approved ∨ gp.status = Status.used then
      if !(hasOutLog gp) then (gp, some MarkError.notExitedYet)
      else if hasInLog gp then (gp, some MarkError.alreadyReturned)
      else
        ({ gp with status := Status.used,
                   logs := { action := GateAction.entry, timestamp := now,
                             markedBy := u.id, notes := notes } :: gp.logs },
         none)
    else (gp, some MarkError.notValid)
  else (gp, some MarkError.notSecurity)

/-! ## List view (`GatePassListView.get_queryset`) -/

/-- The role-based filtering step of `GatePassListView.get_queryset`: whether
a pass survives the role scoping for the requesting user. The seven roles are
the whole enumeration, so the source's final `queryset.none()` branch is
unreachable. -/
def visibleByRole (u : User) (gp : GatePass) : Bool :=
  match u.role with
  | Role.student => gp.student.id == u.id
  | Role.faculty | Role.class_incharge | Role.hod =>
      match u.department with
      | some d => gp.student.department == some d
      | none => false
  | Role.principal | Role.admin => true
  | Role.security => gp.status == Status.approved

/-- The optional query parameters of `GatePassListView.get_queryset`. -/
structure ListFilters where
  status : Option Status
  passType : Option PassType
  dateFrom : Option Nat
  dateTo : Option Nat
deriving DecidableEq, Repr

/-- The query-parameter narrowing applied after role scoping: each present
filter must match. -/
def matchesFilters (f : ListFilters) (gp : GatePass) : Bool :=
  (match f.status with | some s => gp.status == s | none => true) &&
  (match f.passType with | some t => gp.passType == t | none => true) &&
  (match f.dateFrom with | some d => d ≤ dateOf gp.outDatetime | none => true) &&
  (match f.dateTo with | some d => dateOf gp.outDatetime ≤ d | none => true)

/-- `GatePassListView.get_queryset` over a table of passes: role scoping then
query-parameter narrowing. -/
def listPasses (u : User) (f : ListFilters) (db : List GatePass) :
    List GatePass :=
  (db.filter (fun gp => visibleByRole u gp)).filter
    (fun gp => matchesFilters f gp)

/-! ## Reachable pass states

A pass comes into existence only through `createPass` and is mutated only by
the four transition endpoints; `Reachable` closes over exactly these. -/

/-- The pass states reachable through the lifecycle operations. -/
inductive Reachable : GatePass → Prop where
  | create (u : User) (hasProfile : Bool) (res : Residency) (pt : PassType)
      (reason : String) (outD inD now : DateTime) (gp : GatePass)
      (h : createPass u hasProfile res pt reason outD inD now = Except.ok gp) :
      Reachable gp
  | approveStep (u : User) (c : String) (gp : GatePass) (h : Reachable gp) :
      Reachable (approve u c gp).1
  | rejectStep (u : User) (c : String) (gp : GatePass) (h : Reachable gp) :
      Reachable (reject u c gp).1
  | markOutStep (u : User) (gp : GatePass) (now : DateTime) (notes : String)
      (h : Reachable gp) : Reachable (markOut u gp now notes).1
  | markInStep (u : User) (gp : GatePass) (now : DateTime) (notes : String)
      (h : Reachable gp) : Reachable (markIn u gp now notes).1

/-- The GateLog ledger invariant: at most one OUT row, at most one IN row,
and an IN row only in the presence of an OUT row. -/
def logsInvariant (gp : GatePass) : Prop :=
  outCount gp ≤ 1 ∧ inCount gp ≤ 1 ∧
  (hasInLog gp = true → hasOutLog gp = true)

lemma outCount_eq_zero_of_not_hasOutLog {gp : GatePass}
    (h : hasOutLog gp = false) : outCount gp = 0 := by
  unfold hasOutLog at h
  unfold outCount
  rw [List.length_eq_zero, List.filter_eq_nil_iff]
  intro a ha
  rw [List.any_eq_false] at h
  exact h a ha

lemma approve_preserves_logs (u : User) (c : String) (gp : GatePass) :
    ((approve u c gp).1).logs = gp.logs := by
  unfold approve
  split <;> [skip; rfl]
  split <;> [skip; rfl]
  split <;> rfl

lemma reject_preserves_logs (u : User) (c : String) (gp : GatePass) :
    ((reject u c gp).1).logs = gp.logs := by
  unfold reject
  split <;> [skip; rfl]
  split <;> [skip; rfl]
  split <;> rfl

lemma approve_preserves_datetimes (u : User) (c : String) (gp : GatePass) :
    ((approve u c gp).1).outDatetime = gp.outDatetime ∧
    ((approve u c gp).1).inDatetime = gp.inDatetime := by
  unfold approve
  split <;> [skip; exact ⟨rfl, rfl⟩]
  split <;> [skip; exact ⟨rfl, rfl⟩]
  split <;> exact ⟨rfl, rfl⟩

lemma reject_preserves_datetimes (u : User) (c : String) (gp : GatePass) :
    ((reject u c gp).1).outDatetime = gp.outDatetime ∧
    ((reject u c gp).1).inDatetime = gp.inDatetime := by
  unfold reject
  split <;> [skip; exact ⟨rfl, rfl⟩]
  split <;> [skip; exact ⟨rfl, rfl⟩]
  split <;> exact ⟨rfl, rfl⟩

lemma markOut_preserves_datetimes (u : User) (gp : GatePass) (now : DateTime)
    (notes : String) :
    ((markOut u gp now notes).1).outDatetime = gp.outDatetime ∧
    ((markOut u gp now notes).1).inDatetime = gp.inDatetime := by
  unfold markOut
  split <;> [skip; exact ⟨rfl, rfl⟩]
  split <;> [skip; exact ⟨rfl, rfl⟩]
  split <;> [exact ⟨rfl, rfl⟩; skip]
  split <;> [exact ⟨rfl, rfl⟩; skip]
  split <;> exact ⟨rfl, rfl⟩

lemma markIn_preserves_datetimes (u : User) (gp : GatePass) (now : DateTime)
    (notes : String) :
    ((markIn u gp now notes).1).outDatetime = gp.outDatetime ∧
    ((markIn u gp now notes).1).inDatetime = gp.inDatetime := by
  unfold markIn
  split <;> [skip; exact ⟨rfl, rfl⟩]
  split <;> [skip; exact ⟨rfl, rfl⟩]
  split <;> [exact ⟨rfl, rfl⟩; skip]
  split <;> exact ⟨rfl, rfl⟩

lemma markOut_preserves_logsInvariant (u : User) (gp : GatePass)
    (now : DateTime) (notes : String) (h : logsInvariant gp) :
    logsInvariant (markOut u gp now notes).1 := by
  unfold markOut
  split <;> [skip; exact h]
  split <;> [skip; exact h]
  split
  · exact h
  · rename_i hOut
    rw [Bool.not_eq_true] at hOut
    split
    · exact h
    · split
      · exact h
      · refine ⟨?_, ?_, ?_⟩
        · show outCount _ ≤ 1
          unfold outCount at *
          simp only [List.filter_cons, beq_self_eq_true, if_pos,
            List.length_cons]
          have := outCount_eq_zero_of_not_hasOutLog hOut
          unfold outCount at this
          simp [this]
        · show inCount _ ≤ 1
          unfold inCount at *
          simpa using h.2.1
        · intro _
          show hasOutLog _ = true
          unfold hasOutLog
          simp

lemma markIn_preserves_logsInvariant (u : User) (gp : GatePass)
    (now : DateTime) (notes : String) (h : logsInvariant gp) :
    logsInvariant (markIn u gp now notes).1 := by
  unfold markIn
  split <;> [skip; exact h]
  split <;> [skip; exact h]
  split
  · exact h
  · split
    · exact h
    · rename_i hOut hIn
      simp only [Bool.not_eq_true, Bool.not_eq_false] at hOut hIn
      refine ⟨?_, ?_, ?_⟩
      · show outCount _ ≤ 1
        unfold outCount at *
        simpa using h.1
      · show inCount _ ≤ 1
        unfold inCount at *
        have hz : (gp.logs.filter (fun l => l.action == GateAction.entry)).length = 0 := by
          have := hIn
          unfold hasInLog at this
          rw [List.length_eq_zero, List.filter_eq_nil_iff]
          intro a ha
          rw [List.any_eq_false] at this
          exact this a ha
        simp [hz]
      · intro _
        show hasOutLog _ = true
        unfold hasOutLog at *
        simpa using hOut

/-- Every reachable pass satisfies the ledger invariant. -/
lemma reachable_logsInvariant {gp : GatePass} (h : Reachable gp) :
    logsInvariant gp := by
  induction h with
  | create u hp res pt r o i now gp hok =>
      unfold createPass at hok
      cases hv : validateCreate u hp res pt o i now with
      | some e => rw [hv] at hok; cases hok
      | none =>
          rw [hv] at hok
          cases hok
          exact ⟨by simp [outCount], by simp [inCount], by simp [hasInLog]⟩
  | approveStep u c gp _ ih =>
      unfold logsInvariant outCount inCount hasInLog hasOutLog at *
      rw [approve_preserves_logs]
      exact ih
  | rejectStep u c gp _ ih =>
      unfold logsInvariant outCount inCount hasInLog hasOutLog at *
      rw [reject_preserves_logs]
      exact ih
  | markOutStep u gp now notes _ ih =>
      exact markOut_preserves_logsInvariant u gp now notes ih
  | markInStep u gp now notes _ ih =>
      exact markIn_preserves_logsInvariant u gp now notes ih

/-- A create request that validates never has `in_datetime ≤ out_datetime`. -/
lemma validateCreate_none_dates {u : User} {hp : Bool} {res : Residency}
    {pt : PassType} {outD inD now : DateTime}
    (h : validateCreate u hp res pt outD inD now = none) : outD < inD := by
  unfold validateCreate at h
  split at h
  · cases h
  · split at h
    · cases h
    · split at h
      · cases h
      · split at h
        · cases h
        · rename_i h4
          exact Nat.lt_of_not_le h4

/-- Every reachable pass has `out_datetime < in_datetime`: creation enforces
it and no transition touches the two instants. -/
lemma reachable_dates {gp : GatePass} (h : Reachable gp) :
    gp.outDatetime < gp.inDatetime := by
  induction h with
  | create u hp res pt r o i now gp hok =>
      unfold createPass at hok
      cases hv : validateCreate u hp res pt o i now with
      | some e => rw [hv] at hok; cases hok
      | none =>
          rw [hv] at hok
          cases hok
          exact validateCreate_none_dates hv
  | approveStep u c gp _ ih =>
      have hd := approve_preserves_datetimes u c gp
      rw [hd.1, hd.2]; exact ih
  | rejectStep u c gp _ ih =>
      have hd := reject_preserves_datetimes u c gp
      rw [hd.1, hd.2]; exact ih
  | markOutStep u gp now notes _ ih =>
      have hd := markOut_preserves_datetimes u gp now notes
      rw [hd.1, hd.2]; exact ih
  | markInStep u gp now notes _ ih =>
      have hd := markIn_preserves_datetimes u gp now notes
      rw [hd.1, hd.2]; exact ih

/-! ## Concrete sample data -/

/-- A CSE student. -/
def sampleStudent : User := { id := 1, role := Role.student, department := some "CSE" }

/-- An ECE student. -/
def sampleStudentECE : User := { id := 2, role := Role.student, department := some "ECE" }

/-- A CSE faculty member. -/
def sampleFaculty : User := { id := 3, role := Role.faculty, department := some "CSE" }

/-- A CSE head of department. -/
def sampleHod : User := { id := 4, role := Role.hod, department := some "CSE" }

/-- A CSE class incharge. -/
def sampleIncharge : User := { id := 5, role := Role.class_incharge, department := some "CSE" }

/-- A security guard (no department). -/
def sampleSecurity : User := { id := 6, role := Role.security, department := none }

/-- The pass `createPass` stores for `sampleStudent`'s valid day-out request
(out = 2000, in = 2100, requested at 1000). -/
def freshPass : GatePass :=
  { student := sampleStudent, passType := PassType.DAY_OUT, reason := "errand",
    outDatetime := 2000, inDatetime := 2100, status := Status.pending,
    approvedBy := none, approverComment := "", logs := [] }

/-- `freshPass` after approval by `sampleHod`. -/
def approvedPass : GatePass :=
  { freshPass with status := Status.approved, approvedBy := some 4 }

/-- `approvedPass` once security has marked the exit at 2005. -/
def outPass : GatePass :=
  { approvedPass with logs :=
      [{ action := GateAction.out, timestamp := 2005, markedBy := 6, notes := "" }] }

/-- A pass of the ECE student, used for cross-department scenarios. -/
def ecePass : GatePass :=
  { student := sampleStudentECE, passType := PassType.HOME_LEAVE, reason := "home",
    outDatetime := 2000, inDatetime := 2100, status := Status.pending,
    approvedBy := none, approverComment := "", logs := [] }

/-! ## Claims -/

/-- C2 (counterexample): the claim says a create request whose `out_datetime`
equals the current instant fails validation; in the source the check is
`out_datetime < timezone.now()`, so at the concrete input
out = now = 2000 (in = 2100, hosteller day-out) creation succeeds. -/
theorem claim_c2_counterexample :
    (createPass sampleStudent true Residency.HOSTELLER PassType.DAY_OUT
        "errand" 2000 2100 2000).isOk = true := by
  decide

/-- C2 (amended): the future check is strict the other way round: a create
request fails it only when `out_datetime` is strictly before now, and an
`out_datetime` exactly equal to now passes it — an otherwise-valid request
with out = now is created. -/
theorem claim_c2_equal_now_passes (u : User) (pt : PassType) (reason : String)
    (o i now : DateTime) (hrole : u.role = Role.student) :
    (o < now → validateCreate u true Residency.HOSTELLER pt o i now =
        some CreateError.outNotFuture) ∧
    (o = now → o < i → hostellerPassTypes.contains pt = true →
      (createPass u true Residency.HOSTELLER pt reason o i now).isOk = true) := by
  constructor
  · intro hlt
    simp [validateCreate, hrole, hlt]
  · intro heq hlt hcont
    subst heq
    have h2 : ¬ i ≤ o := Nat.not_le.mpr hlt
    have h3 : pt ∈ hostellerPassTypes := by simpa using hcont
    simp [createPass, validateCreate, hrole, h2, h3, Except.isOk, Except.toBool]

/-- C2 (witness): the amended theorem applied at out = 500 < now = 1000
(strictly-before fails) and at out = now = 2000 (equal-to-now succeeds). -/
theorem claim_c2_witness :
    (validateCreate sampleStudent true Residency.HOSTELLER PassType.DAY_OUT
        500 2100 1000 = some CreateError.outNotFuture) ∧
    (createPass sampleStudent true Residency.HOSTELLER PassType.DAY_OUT
        "errand" 2000 2100 2000).isOk = true :=
  ⟨(claim_c2_equal_now_passes sampleStudent PassType.DAY_OUT "errand"
      500 2100 1000 rfl).1 (by decide),
   (claim_c2_equal_now_passes sampleStudent PassType.DAY_OUT "errand"
      2000 2100 2000 rfl).2 rfl (by decide) (by decide)⟩

/-- C3: on a reachable approved pass with no OUT log, a mark-out by security
at an instant strictly after `in_datetime` returns the expiry error and the
pass saved with status `expired`. (Reachability supplies the creation-time
invariant `out_datetime < in_datetime`, which routes the attempt past the
"not yet valid" guard.) -/
theorem claim_c3_markOut_late_expires (u : User) (gp : GatePass)
    (now : DateTime) (notes : String)
    (hsec : u.role = Role.security) (hreach : Reachable gp)
    (hst : gp.status = Status.approved) (hout : hasOutLog gp = false)
    (hlate : gp.inDatetime < now) :
    markOut u gp now notes =
      ({ gp with status := Status.expired }, some MarkError.expired) := by
  have hdt := reachable_dates hreach
  have h1 : canMarkEntryExit u = true := by
    unfold canMarkEntryExit; rw [hsec]; rfl
  have h2 : ¬ now < gp.outDatetime :=
    Nat.not_lt.mpr (Nat.le_of_lt (Nat.lt_trans hdt hlate))
  unfold markOut
  rw [if_pos h1, if_pos hst, if_neg (by simp [hout]), if_neg h2, if_pos hlate]

/-- C3 (witness): `approvedPass` is reachable (created at 1000, approved by
the HOD); mark-out at 3000 > in_datetime = 2100 expires it. -/
theorem claim_c3_witness :
    markOut sampleSecurity approvedPass 3000 "" =
      ({ approvedPass with status := Status.expired }, some MarkError.expired) :=
  claim_c3_markOut_late_expires sampleSecurity approvedPass 3000 "" rfl
    (Reachable.approveStep sampleHod "" freshPass
      (Reachable.create sampleStudent true Residency.HOSTELLER PassType.DAY_OUT
        "errand" 2000 2100 1000 freshPass rfl))
    rfl rfl (by decide)

/-- C4: for an actor who passes both layers of `CanApproveGatePass`, approve
and reject on a pass whose status is not `pending` both return the
"already {status}" response carrying the current status and leave the pass
unchanged; either endpoint succeeds only from `pending`. -/
theorem claim_c4_state_conflict (u : User) (gp : GatePass) (c : String)
    (hperm : canApproveHasPermission u = true)
    (hobj : (canApproveObjectPerm u gp).1 = true) :
    (gp.status ≠ Status.pending →
      approve u c gp = (gp, some (ApproveError.alreadyStatus gp.status)) ∧
      reject u c gp = (gp, some (ApproveError.alreadyStatus gp.status))) ∧
    ((approve u c gp).2 = none → gp.status = Status.pending) ∧
    ((reject u c gp).2 = none → gp.status = Status.pending) := by
  by_cases h : gp.status = Status.pending
  · exact ⟨fun hne => absurd h hne, fun _ => h, fun _ => h⟩
  · refine ⟨fun _ => ⟨?_, ?_⟩, ?_, ?_⟩
    · simp [approve, hperm, hobj, h]
    · simp [reject, hperm, hobj, h]
    · simp [approve, hperm, hobj, h]
    · simp [reject, hperm, hobj, h]

/-- C4 (witness): the HOD re-approving or rejecting the already-approved
`approvedPass` gets the state-conflict response. -/
theorem claim_c4_witness :
    approve sampleHod "" approvedPass =
      (approvedPass, some (ApproveError.alreadyStatus approvedPass.status)) ∧
    reject sampleHod "" approvedPass =
      (approvedPass, some (ApproveError.alreadyStatus approvedPass.status)) :=
  (claim_c4_state_conflict sampleHod approvedPass "" rfl rfl).1 (by decide)

/-- C5: a class incharge's approve or reject of a non-EMERGENCY pass is
denied with the EMERGENCY-only message and no mutation — the statement binds
the departments of neither side, so the outcome is independent of them —
while on an EMERGENCY pass the object permission grants. -/
theorem claim_c5_incharge_emergency_only (u : User) (gp : GatePass) (c : String)
    (hrole : u.role = Role.class_incharge) :
    (gp.passType ≠ PassType.EMERGENCY →
      approve u c gp = (gp, some ApproveError.emergencyOnly) ∧
      reject u c gp = (gp, some ApproveError.emergencyOnly)) ∧
    (gp.passType = PassType.EMERGENCY → (canApproveObjectPerm u gp).1 = true) := by
  have h1 : canApproveHasPermission u = true := by
    unfold canApproveHasPermission; rw [hrole]; decide
  constructor
  · intro hne
    have h2 : canApproveObjectPerm u gp = (false, ApproveError.emergencyOnly) := by
      unfold canApproveObjectPerm
      rw [hrole]
      rw [if_neg (by decide), if_pos (by decide), if_neg hne]
    constructor
    · unfold approve
      rw [if_pos h1, h2]
      simp
    · unfold reject
      rw [if_pos h1, h2]
      simp
  · intro he
    unfold canApproveObjectPerm
    rw [hrole]
    rw [if_neg (by decide), if_pos (by decide), if_pos he]

/-- C5 (witness): the CSE class incharge on the ECE student's HOME_LEAVE pass
is denied with the EMERGENCY-only message; on the EMERGENCY variant of the
same pass the object permission grants. -/
theorem claim_c5_witness :
    (approve sampleIncharge "" ecePass = (ecePass, some ApproveError.emergencyOnly) ∧
     reject sampleIncharge "" ecePass = (ecePass, some ApproveError.emergencyOnly)) ∧
    (canApproveObjectPerm sampleIncharge
      { ecePass with passType := PassType.EMERGENCY }).1 = true := by
  constructor
  · exact (claim_c5_incharge_emergency_only sampleIncharge ecePass "" rfl).1 (by decide)
  · exact (claim_c5_incharge_emergency_only sampleIncharge
      { ecePass with passType := PassType.EMERGENCY } "" rfl).2 rfl

/-- C6: a day scholar's request validates only if the pass type is among
{DAY_OUT, HOME_LEAVE, EMERGENCY} and out/in fall on the same calendar date;
a hosteller's request with any of the five pass types and no same-day
constraint validates whenever the generic datetime checks pass (so a
multi-day hosteller request succeeds). -/
theorem claim_c6_residency_rules (u : User) (pt : PassType) (o i now : DateTime)
    (hrole : u.role = Role.student) :
    (validateCreate u true Residency.DAY_SCHOLAR pt o i now = none →
      dayScholarPassTypes.contains pt = true ∧ dateOf o = dateOf i) ∧
    (now ≤ o → o < i → hostellerPassTypes.contains pt = true →
      validateCreate u true Residency.HOSTELLER pt o i now = none) := by
  constructor
  · intro h
    unfold validateCreate at h
    split at h
    · cases h
    · split at h
      · cases h
      · split at h
        · cases h
        · split at h
          · cases h
          · split at h
            · split at h
              · cases h
              · split at h
                · cases h
                · rename_i hc hd
                  exact ⟨by simpa using hc, not_not.mp hd⟩
            · rename_i hres
              exact absurd rfl hres
  · intro ho hi hc
    have h4 : ¬ o < now := Nat.not_lt.mpr ho
    have h5 : ¬ i ≤ o := Nat.not_le.mpr hi
    have h6 : pt ∈ hostellerPassTypes := by simpa using hc
    simp [validateCreate, hrole, h4, h5, h6]

/-- C6 (witness): a day scholar's valid same-day DAY_OUT request (both
instants on day 1) yields the two conditions; a hosteller's NIGHT_OUT
request spanning day 1 to day 3 validates. -/
theorem claim_c6_witness :
    (dayScholarPassTypes.contains PassType.DAY_OUT = true ∧
      dateOf 2000 = dateOf 2100) ∧
    validateCreate sampleStudent true Residency.HOSTELLER PassType.NIGHT_OUT
      2000 5000 1000 = none :=
  ⟨(claim_c6_residency_rules sampleStudent PassType.DAY_OUT 2000 2100 1000
      rfl).1 (by decide),
   (claim_c6_residency_rules sampleStudent PassType.NIGHT_OUT 2000 5000 1000
      rfl).2 (by decide) (by decide) (by decide)⟩

/-- C7: every pass reachable through create / approve / reject / mark-out /
mark-in has at most one OUT log, at most one IN log, and an IN log only when
an OUT log exists; and a mark-in on a pass with no OUT log always returns an
error (so IN-before-OUT never succeeds in either order of attempts). -/
theorem claim_c7_log_ledger (gp : GatePass) (hreach : Reachable gp)
    (u : User) (now : DateTime) (notes : String) :
    logsInvariant gp ∧
    (hasOutLog gp = false → ((markIn u gp now notes).2).isSome = true) := by
  refine ⟨reachable_logsInvariant hreach, ?_⟩
  intro hout
  unfold markIn
  split
  · split
    · rw [if_pos (by simp [hout])]
      rfl
    · rfl
  · rfl

/-- C7 (witness): the freshly created pass satisfies the ledger invariant and
a mark-in on it (no OUT log yet) fails. -/
theorem claim_c7_witness :
    logsInvariant freshPass ∧
    ((markIn sampleSecurity freshPass 2050 "").2).isSome = true := by
  have hr : Reachable freshPass :=
    Reachable.create sampleStudent true Residency.HOSTELLER PassType.DAY_OUT
      "errand" 2000 2100 1000 freshPass rfl
  exact ⟨(claim_c7_log_ledger freshPass hr sampleSecurity 2050 "").1,
         (claim_c7_log_ledger freshPass hr sampleSecurity 2050 "").2 rfl⟩

/-- C8: whatever optional filters a security actor supplies, every pass in
their list result has status `approved` (and came from the table): the
query-parameter filters only narrow the role-scoped set. -/
theorem claim_c8_security_sees_approved_only (u : User) (f : ListFilters)
    (db : List GatePass) (gp : GatePass)
    (hrole : u.role = Role.security) (hmem : gp ∈ listPasses u f db) :
    gp.status = Status.approved ∧ gp ∈ db := by
  unfold listPasses at hmem
  rw [List.mem_filter] at hmem
  obtain ⟨hmem1, _⟩ := hmem
  rw [List.mem_filter] at hmem1
  obtain ⟨hdb, hvis⟩ := hmem1
  refine ⟨?_, hdb⟩
  simp [visibleByRole, hrole] at hvis
  exact hvis

/-- C8 (witness): with no filters, the security guard listing a one-row table
containing `approvedPass` observes it, and it is approved. -/
theorem claim_c8_witness :
    approvedPass.status = Status.approved ∧ approvedPass ∈ [approvedPass] :=
  claim_c8_security_sees_approved_only sampleSecurity
    { status := none, passType := none, dateFrom := none, dateTo := none }
    [approvedPass] approvedPass rfl (by decide)

/-- C9: mark-in checks no time window: on a pass with status approved or
used, an OUT log and no IN log, a security mark-in at an instant strictly
after `in_datetime` still succeeds, the pass becomes `used` (not `expired`)
and the IN log carries the late timestamp. -/
theorem claim_c9_markIn_no_time_check (u : User) (gp : GatePass)
    (now : DateTime) (notes : String)
    (hsec : u.role = Role.security)
    (hst : gp.status = Status.approved ∨ gp.status = Status.used)
    (hout : hasOutLog gp = true) (hin : hasInLog gp = false)
    (_hlate : gp.inDatetime < now) :
    markIn u gp now notes =
      ({ gp with status := Status.used,
                 logs := { action := GateAction.entry, timestamp := now,
                           markedBy := u.id, notes := notes } :: gp.logs },
       none) := by
  have h1 : canMarkEntryExit u = true := by
    unfold canMarkEntryExit; rw [hsec]; rfl
  unfold markIn
  rw [if_pos h1, if_pos hst, if_neg (by simp [hout]), if_neg (by simp [hin])]

/-- C9 (witness): `outPass` (exit logged at 2005, in_datetime 2100) is marked
in at 3000 — late — and becomes `used` with the IN log stamped 3000. -/
theorem claim_c9_witness :
    markIn sampleSecurity outPass 3000 "" =
      ({ outPass with status := Status.used,
                      logs := { action := GateAction.entry, timestamp := 3000,
                                markedBy := 6, notes := "" } :: outPass.logs },
       none) :=
  claim_c9_markIn_no_time_check sampleSecurity outPass 3000 "" rfl
    (Or.inl rfl) rfl rfl (by decide)

/-- C10: the `CanApproveGatePass` allow/deny outcome is unchanged under any
replacement of the approver's department and of the owning student's
department: it reads only the approver's role and the pass's type. -/
theorem claim_c10_department_noninterference (u : User) (gp : GatePass)
    (d1 d2 e1 e2 : Option String) :
    approveDecision { u with department := d1 }
        { gp with student := { gp.student with department := e1 } } =
      approveDecision { u with department := d2 }
        { gp with student := { gp.student with department := e2 } } := rfl

/-- C1 (counterexample): the claim extends department scoping to the
single-pass detail operation; but `CanViewGatePass.has_object_permission`
grants the CSE faculty member access to the ECE student's pass although the
departments differ. -/
theorem claim_c1_counterexample :
    canViewGatePassObject sampleFaculty ecePass = true ∧
    sampleFaculty.department ≠ ecePass.student.department := by
  decide

/-- C1 (amended): for faculty / class_incharge / hod the department scoping
holds for the list operation — a listed pass's student department equals the
actor's (necessarily present) department, and an actor with no department
gets an empty list — but the single-pass detail permission grants such an
actor access to every pass, regardless of department. -/
theorem claim_c1_department_scope (u : User) (f : ListFilters)
    (db : List GatePass) (gp : GatePass)
    (hrole : u.role = Role.faculty ∨ u.role = Role.class_incharge ∨
             u.role = Role.hod) :
    (gp ∈ listPasses u f db →
      gp.student.department = u.department ∧ u.department ≠ none) ∧
    (u.department = none → listPasses u f db = []) ∧
    (∀ gp2 : GatePass, canViewGatePassObject u gp2 = true) := by
  refine ⟨?_, ?_, ?_⟩
  · intro hmem
    unfold listPasses at hmem
    rw [List.mem_filter] at hmem
    obtain ⟨hmem1, _⟩ := hmem
    rw [List.mem_filter] at hmem1
    obtain ⟨_, hvis⟩ := hmem1
    rcases hrole with hr | hr | hr <;>
    · simp only [visibleByRole, hr] at hvis
      cases hd : u.department with
      | none => rw [hd] at hvis; cases hvis
      | some d =>
          rw [hd] at hvis
          simp at hvis
          simp [hd, hvis]
  · intro hd
    unfold listPasses
    have hnil : db.filter (fun gp => visibleByRole u gp) = [] := by
      rw [List.filter_eq_nil_iff]
      intro a _
      rcases hrole with hr | hr | hr <;> simp [visibleByRole, hr, hd]
    rw [hnil]
    rfl
  · intro gp2
    rcases hrole with hr | hr | hr <;>
    · by_cases hid : (gp2.student.id == u.id) = true
      · simp [canViewGatePassObject, hid]
      · simp [canViewGatePassObject, hid, hr]

/-- C1 (witness): the CSE faculty member listing a table with a CSE pass and
an ECE pass sees the CSE one with matching department, and may open any pass
through the detail permission — here the ECE student's pass. -/
theorem claim_c1_witness :
    (approvedPass.student.department = sampleFaculty.department ∧
      sampleFaculty.department ≠ none) ∧
    canViewGatePassObject sampleFaculty ecePass = true := by
  constructor
  · exact (claim_c1_department_scope sampleFaculty
      { status := none, passType := none, dateFrom := none, dateTo := none }
      [approvedPass, ecePass] approvedPass (Or.inl rfl)).1 (by decide)
  · exact (claim_c1_department_scope sampleFaculty
      { status := none, passType := none, dateFrom := none, dateTo := none }
      [approvedPass, ecePass] approvedPass (Or.inl rfl)).2.2 ecePass

end GatePassSystem
